import Mathlib

/-!
# User resource handlers of `webapp/user.go`

A shallow embedding of the six handlers `getUsers`, `getUser`, `createUser`,
`deleteUser`, `updateUser` and `getUserProjects`.  A handler is a function on a
`World`: the state of the persistence gateway, the log of gateway operations
issued so far, and the log of responses written so far.  Go's early `return`
becomes the end of a `match` branch; a branch without `return` continues with
the statements that follow it.
-/

namespace Webapp

/-! ## Data model -/

/-- Go `error` values as far as the handlers can tell them apart: the sentinel
`gorm.RecordNotFound`, a `sqlite3.Error` (with its `Code` and `ExtendedCode`),
and any other error. -/
inductive GoError where
  | RecordNotFound
  | Sqlite3Error (Code : Nat) (ExtendedCode : Nat)
  | Other (msg : String)
  deriving DecidableEq, Repr

/-- The constant `sqlite3.ErrConstraintNotNull`, `ErrConstraint | 5 << 8`. -/
def ErrConstraintNotNull : Nat := 1299

/-- The constant `sqlite3.ErrConstraintPrimaryKey`, `ErrConstraint | 6 << 8`. -/
def ErrConstraintPrimaryKey : Nat := 1555

/-- The constant `sqlite3.ErrConstraintUnique`, `ErrConstraint | 8 << 8`. -/
def ErrConstraintUnique : Nat := 2067

/-- The fields of `models.User` that the handlers read or write. -/
structure User where
  ID : Int := 0
  Name : String := ""
  Email : String := ""
  EnableEmail : Bool := false
  Phone : String := ""
  EnablePhone : Bool := false
  Universal : Bool := false
  RuleLevel : Int := 0
  deriving DecidableEq, Repr

/-- A `models.Project`; the handlers never look inside one, the gateway model
keys it by `ID`. -/
structure Project where
  ID : Int := 0
  Name : String := ""
  deriving DecidableEq, Repr

/-- The struct `createUserRequest`. -/
structure createUserRequest where
  Name : String := ""
  Email : String := ""
  EnableEmail : Bool := false
  Phone : String := ""
  EnablePhone : Bool := false
  Universal : Bool := false
  RuleLevel : Int := 0
  deriving DecidableEq, Repr

/-- The struct `updateUserRequest`. -/
structure updateUserRequest where
  Name : String := ""
  Email : String := ""
  EnableEmail : Bool := false
  Phone : String := ""
  EnablePhone : Bool := false
  Universal : Bool := false
  RuleLevel : Int := 0
  deriving DecidableEq, Repr

/-- The package `models` as the handlers use it: the four validation rules
(`none` is Go's `nil` error) and the constant `RuleLevelLow`. -/
structure Models where
  ValidateUserName : String → Option GoError
  ValidateUserEmail : String → Option GoError
  ValidateUserPhone : String → Option GoError
  ValidateRuleLevel : Int → Option GoError
  RuleLevelLow : Int

/-- Modelled from the spec: the error values of the package (`ErrUserID`,
`ErrProjectID`, `ErrBadRequest`, `ErrNotNull`, `ErrPrimaryKey`,
`ErrDuplicateUserName`, `ErrUserNotFound`) and the two constructors
`NewValidationWebError` and `NewUnexceptedWebError`, which are declared outside
`user.go`.  The spec's taxonomy keeps them apart, a User-scoped bad id from a
Project-scoped one included. -/
inductive WebError where
  | ErrBadRequest
  | ErrUserID
  | ErrProjectID
  | ErrUserNotFound
  | ErrNotNull
  | ErrPrimaryKey
  | ErrDuplicateUserName
  | NewValidationWebError (err : GoError)
  | NewUnexceptedWebError (err : GoError)
  deriving DecidableEq, Repr

/-- What `ResponseJSONOK` is given: the handlers answer with a list of users,
one user, or a list of projects. -/
inductive Payload where
  | Users (users : List User)
  | User (user : User)
  | Projects (projs : List Project)
  deriving DecidableEq, Repr

/-- One write to the `http.ResponseWriter`. -/
inductive Response where
  | Error (e : WebError)
  | JSONOK (v : Payload)
  deriving DecidableEq, Repr

/-- One operation issued on `db.Admin.DB()`. -/
inductive Call where
  | FindUsers
  | First (id : Int)
  | Create (user : User)
  | Save (user : User)
  | Delete (user : User)
  | FindProjects
  | AssociationFind (user : User)
  | AssociationDelete (user : User) (projs : List Project)
  deriving DecidableEq, Repr

/-- The persistence gateway behind `db.Admin.DB()`, with arbitrary behaviour:
every operation takes the gateway state and gives its result and the next
state.  An operation that fills or rewrites the struct it is handed
(`First`, `Find`, `Create`, `Save`) gives that struct back when its `Error` is
`nil`; `Delete` and the association delete give only their `Error`. -/
structure Gateway (σ : Type) where
  FindUsers : σ → Except GoError (List User) × σ
  First : Int → σ → Except GoError User × σ
  Create : User → σ → Except GoError User × σ
  Save : User → σ → Except GoError User × σ
  Delete : User → σ → Option GoError × σ
  FindProjects : σ → Except GoError (List Project) × σ
  AssociationFind : User → σ → Except GoError (List Project) × σ
  AssociationDelete : User → List Project → σ → Option GoError × σ

/-- The state a handler runs in. -/
structure World (σ : Type) where
  db : σ
  calls : List Call := []
  written : List Response := []

/-- The decoded request body: a JSON object in which each of the seven fixed
fields is present or omitted. -/
structure JSONBody where
  name : Option String := none
  email : Option String := none
  enableEmail : Option Bool := none
  phone : Option String := none
  enablePhone : Option Bool := none
  universal : Option Bool := none
  ruleLevel : Option Int := none
  deriving DecidableEq, Repr

/-- An `http.Request` as far as the handlers use it: `Body` is `none` when the
body cannot be decoded into the expected shape. -/
structure Request where
  Body : Option JSONBody := none
  deriving DecidableEq, Repr

/-- The `httprouter.Params`: the path parameters by name. -/
abbrev Params := List (String × String)

/-- The method `Params.ByName`: the first value under that name, or the empty
string. -/
def Params.ByName (ps : Params) (name : String) : String :=
  match ps.find? (fun p => p.1 == name) with
  | some p => p.2
  | none => ""

/-! ## `strconv.Atoi` -/

/-- The value of a run of decimal digits, `none` if a character is no digit. -/
def digitsValue : List Char → Nat → Option Nat
  | [], acc => some acc
  | c :: cs, acc =>
    if 48 ≤ c.toNat ∧ c.toNat ≤ 57 then digitsValue cs (acc * 10 + (c.toNat - 48)) else none

/-- The function `strconv.Atoi`: an optional sign, then at least one decimal
digit, the value within the range of a 64-bit `int`. -/
def Atoi (s : String) : Option Int :=
  let (neg, ds) : Bool × List Char :=
    match s.data with
    | [] => (false, [])
    | c :: cs => if c = '-' then (true, cs) else if c = '+' then (false, cs) else (false, c :: cs)
  match ds with
  | [] => none
  | _ :: _ =>
    match digitsValue ds 0 with
    | none => none
    | some n =>
      let v : Int := if neg then -(n : Int) else (n : Int)
      if -(2 : Int) ^ 63 ≤ v ∧ v < (2 : Int) ^ 63 then some v else none

/-! ## Request binding and response writing -/

/-- Modelled from the spec: `RequestBind` applied to a `createUserRequest`,
which is declared outside `user.go`.  It fails when the body cannot be parsed
into the expected shape; otherwise every field present in the body overrides
the value the struct already holds, and an omitted field keeps it. -/
def RequestBindCreate (r : Request) (req : createUserRequest) : Option createUserRequest :=
  match r.Body with
  | none => none
  | some b =>
    some
      { Name := b.name.getD req.Name
        Email := b.email.getD req.Email
        EnableEmail := b.enableEmail.getD req.EnableEmail
        Phone := b.phone.getD req.Phone
        EnablePhone := b.enablePhone.getD req.EnablePhone
        Universal := b.universal.getD req.Universal
        RuleLevel := b.ruleLevel.getD req.RuleLevel }

/-- Modelled from the spec: `RequestBind` applied to an `updateUserRequest`,
which is declared outside `user.go`; the same decoding as for a create
request. -/
def RequestBindUpdate (r : Request) (req : updateUserRequest) : Option updateUserRequest :=
  match r.Body with
  | none => none
  | some b =>
    some
      { Name := b.name.getD req.Name
        Email := b.email.getD req.Email
        EnableEmail := b.enableEmail.getD req.EnableEmail
        Phone := b.phone.getD req.Phone
        EnablePhone := b.enablePhone.getD req.EnablePhone
        Universal := b.universal.getD req.Universal
        RuleLevel := b.ruleLevel.getD req.RuleLevel }

variable {σ : Type}

/-- The function `ResponseError`: one error response is written. -/
def ResponseError (w : World σ) (e : WebError) : World σ :=
  { w with written := w.written ++ [Response.Error e] }

/-- The function `ResponseJSONOK`: one success payload is written. -/
def ResponseJSONOK (w : World σ) (v : Payload) : World σ :=
  { w with written := w.written ++ [Response.JSONOK v] }

/-- Record a gateway operation and move the gateway to its next state. -/
def World.step (w : World σ) (c : Call) (s : σ) : World σ :=
  { w with db := s, calls := w.calls ++ [c] }

/-! ## The handlers -/

/-- The handler `getUsers`. -/
def getUsers (g : Gateway σ) (w : World σ) : World σ :=
  match g.FindUsers w.db with
  | (Except.error err, s) =>
    ResponseError (w.step Call.FindUsers s) (WebError.NewUnexceptedWebError err)
  | (Except.ok users, s) =>
    ResponseJSONOK (w.step Call.FindUsers s) (Payload.Users users)

/-- The handler `getUser`. -/
def getUser (g : Gateway σ) (ps : Params) (w : World σ) : World σ :=
  match Atoi (ps.ByName "id") with
  | none => ResponseError w WebError.ErrUserID
  | some id =>
    match g.First id w.db with
    | (Except.error err, s) =>
      match err with
      | GoError.RecordNotFound => ResponseError (w.step (Call.First id) s) WebError.ErrUserNotFound
      | _ => ResponseError (w.step (Call.First id) s) (WebError.NewUnexceptedWebError err)
    | (Except.ok user, s) =>
      ResponseJSONOK (w.step (Call.First id) s) (Payload.User user)

/-- The response `createUser` writes for a failed `Create`: the switch on the
`ExtendedCode` of a `sqlite3.Error`, then the catch-all. -/
def createUserError (err : GoError) : WebError :=
  match err with
  | GoError.Sqlite3Error _ ExtendedCode =>
    if ExtendedCode = ErrConstraintNotNull then WebError.ErrNotNull
    else if ExtendedCode = ErrConstraintPrimaryKey then WebError.ErrPrimaryKey
    else if ExtendedCode = ErrConstraintUnique then WebError.ErrDuplicateUserName
    else WebError.NewUnexceptedWebError err
  | _ => WebError.NewUnexceptedWebError err

/-- The handler `createUser`. -/
def createUser (M : Models) (g : Gateway σ) (r : Request) (w : World σ) : World σ :=
  match RequestBindCreate r
      { EnableEmail := true, EnablePhone := true, Universal := false,
        RuleLevel := M.RuleLevelLow } with
  | none => ResponseError w WebError.ErrBadRequest
  | some req =>
    match M.ValidateUserName req.Name with
    | some err => ResponseError w (WebError.NewValidationWebError err)
    | none =>
    match M.ValidateUserEmail req.Email with
    | some err => ResponseError w (WebError.NewValidationWebError err)
    | none =>
    match M.ValidateUserPhone req.Phone with
    | some err => ResponseError w (WebError.NewValidationWebError err)
    | none =>
    match M.ValidateRuleLevel req.RuleLevel with
    | some err => ResponseError w (WebError.NewValidationWebError err)
    | none =>
      let user : User :=
        { Name := req.Name, Email := req.Email, EnableEmail := req.EnableEmail,
          Phone := req.Phone, EnablePhone := req.EnablePhone, Universal := req.Universal,
          RuleLevel := req.RuleLevel }
      match g.Create user w.db with
      | (Except.error err, s) => ResponseError (w.step (Call.Create user) s) (createUserError err)
      | (Except.ok user1, s) => ResponseJSONOK (w.step (Call.Create user) s) (Payload.User user1)

/-- The handler `deleteUser`. -/
def deleteUser (g : Gateway σ) (ps : Params) (w : World σ) : World σ :=
  match Atoi (ps.ByName "id") with
  | none => ResponseError w WebError.ErrUserID
  | some id =>
    let user : User := { ID := id }
    match g.AssociationFind user w.db with
    | (Except.error err, s) =>
      ResponseError (w.step (Call.AssociationFind user) s) (WebError.NewUnexceptedWebError err)
    | (Except.ok projs, s) =>
      let w1 := w.step (Call.AssociationFind user) s
      match g.AssociationDelete user projs w1.db with
      | (some err, s) =>
        ResponseError (w1.step (Call.AssociationDelete user projs) s)
          (WebError.NewUnexceptedWebError err)
      | (none, s) =>
        let w2 := w1.step (Call.AssociationDelete user projs) s
        match g.Delete user w2.db with
        | (some err, s) =>
          match err with
          | GoError.RecordNotFound =>
            ResponseError (w2.step (Call.Delete user) s) WebError.ErrUserNotFound
          | _ => ResponseError (w2.step (Call.Delete user) s) (WebError.NewUnexceptedWebError err)
        | (none, s) => w2.step (Call.Delete user) s

/-- The response `updateUser` writes for a failed `Save`: the comparison with
`gorm.RecordNotFound`, the switch on the `ExtendedCode` of a `sqlite3.Error`,
then the catch-all. -/
def updateUserError (err : GoError) : WebError :=
  match err with
  | GoError.RecordNotFound => WebError.ErrUserNotFound
  | GoError.Sqlite3Error _ ExtendedCode =>
    if ExtendedCode = ErrConstraintNotNull then WebError.ErrNotNull
    else if ExtendedCode = ErrConstraintUnique then WebError.ErrDuplicateUserName
    else WebError.NewUnexceptedWebError err
  | _ => WebError.NewUnexceptedWebError err

/-- The tail of `updateUser` from the comment `// Find` on: look the user up,
overwrite the seven fields, save, answer. -/
def updateUserFind (g : Gateway σ) (id : Int) (req : updateUserRequest) (w : World σ) :
    World σ :=
  match g.First id w.db with
  | (Except.error err, s) =>
    match err with
    | GoError.RecordNotFound => ResponseError (w.step (Call.First id) s) WebError.ErrUserNotFound
    | _ => ResponseError (w.step (Call.First id) s) (WebError.NewUnexceptedWebError err)
  | (Except.ok user, s) =>
    let w1 := w.step (Call.First id) s
    let user1 : User :=
      { user with
        Name := req.Name, Email := req.Email, EnableEmail := req.EnableEmail,
        Phone := req.Phone, EnablePhone := req.EnablePhone, Universal := req.Universal,
        RuleLevel := req.RuleLevel }
    match g.Save user1 w1.db with
    | (Except.error err, s) => ResponseError (w1.step (Call.Save user1) s) (updateUserError err)
    | (Except.ok user2, s) => ResponseJSONOK (w1.step (Call.Save user1) s) (Payload.User user2)

/-- The handler `updateUser`.  The branch for a failed `ValidateRuleLevel`
writes its error and has no `return`: the handler goes on to `// Find`. -/
def updateUser (M : Models) (g : Gateway σ) (r : Request) (ps : Params) (w : World σ) :
    World σ :=
  match Atoi (ps.ByName "id") with
  | none => ResponseError w WebError.ErrUserID
  | some id =>
    match RequestBindUpdate r {} with
    | none => ResponseError w WebError.ErrBadRequest
    | some req =>
      match M.ValidateUserName req.Name with
      | some err => ResponseError w (WebError.NewValidationWebError err)
      | none =>
      match M.ValidateUserEmail req.Email with
      | some err => ResponseError w (WebError.NewValidationWebError err)
      | none =>
      match M.ValidateUserPhone req.Phone with
      | some err => ResponseError w (WebError.NewValidationWebError err)
      | none =>
        let w1 :=
          match M.ValidateRuleLevel req.RuleLevel with
          | some err => ResponseError w (WebError.NewValidationWebError err)
          | none => w
        updateUserFind g id req w1

/-- The handler `getUserProjects`. -/
def getUserProjects (g : Gateway σ) (ps : Params) (w : World σ) : World σ :=
  match Atoi (ps.ByName "id") with
  | none => ResponseError w WebError.ErrProjectID
  | some id =>
    match g.First id w.db with
    | (Except.error err, s) =>
      match err with
      | GoError.RecordNotFound => ResponseError (w.step (Call.First id) s) WebError.ErrUserNotFound
      | _ => ResponseError (w.step (Call.First id) s) (WebError.NewUnexceptedWebError err)
    | (Except.ok user, s) =>
      let w1 := w.step (Call.First id) s
      if user.Universal then
        match g.FindProjects w1.db with
        | (Except.error err, s) =>
          ResponseError (w1.step Call.FindProjects s) (WebError.NewUnexceptedWebError err)
        | (Except.ok projs, s) =>
          ResponseJSONOK (w1.step Call.FindProjects s) (Payload.Projects projs)
      else
        match g.AssociationFind user w1.db with
        | (Except.error err, s) =>
          ResponseError (w1.step (Call.AssociationFind user) s)
            (WebError.NewUnexceptedWebError err)
        | (Except.ok projs, s) =>
          ResponseJSONOK (w1.step (Call.AssociationFind user) s) (Payload.Projects projs)

/-! ## A relational state model of the gateway -/

/-- Modelled from the spec: the durable state the Persistence Gateway owns, as
three tables: the User rows, the Project rows, and the rows of the many-to-many
User-Project relation, each a pair of a user id and a project id. -/
structure DB where
  Users : List User := []
  Projects : List Project := []
  UserProjects : List (Int × Int) := []
  deriving DecidableEq, Repr

/-- The id the store assigns to a new row: one past the largest id in use. -/
def DB.nextID (db : DB) : Int :=
  (db.Users.map (fun u => u.ID)).foldl max 0 + 1

/-- Modelled from the spec: the Persistence Gateway without faults, over `DB`.
`findById` gives the row or the not-found fault; `create` and `save` refuse a
name another row already has with the unique-constraint fault; `save` gives the
not-found fault when no row has the id; `delete` removes the row of the id;
`findAssociated` gives the Projects paired with the user id; `deleteAssociated`
removes the pairs of the user id with the given Projects.  What `delete`
reports when no row has the id is the parameter `missing`: the spec's interface
names the not-found fault (`some GoError.RecordNotFound`), while a delete
statement that matches no row reports no error (`none`).  The association
operations and `save` are those of a user with a non-zero id; zero is the blank
primary key, for which the library does not run them. -/
def relGatewayWith (missing : Option GoError) : Gateway DB where
  FindUsers := fun db => (Except.ok db.Users, db)
  First := fun id db =>
    match db.Users.find? (fun u => u.ID = id) with
    | some u => (Except.ok u, db)
    | none => (Except.error GoError.RecordNotFound, db)
  Create := fun user db =>
    if db.Users.any (fun u => u.Name = user.Name) then
      (Except.error (GoError.Sqlite3Error 19 ErrConstraintUnique), db)
    else
      let user1 : User := { user with ID := db.nextID }
      (Except.ok user1, { db with Users := db.Users ++ [user1] })
  Save := fun user db =>
    if db.Users.any (fun u => u.ID = user.ID) then
      if db.Users.any (fun u => u.ID ≠ user.ID ∧ u.Name = user.Name) then
        (Except.error (GoError.Sqlite3Error 19 ErrConstraintUnique), db)
      else
        (Except.ok user,
          { db with Users := db.Users.map (fun u => if u.ID = user.ID then user else u) })
    else (Except.error GoError.RecordNotFound, db)
  Delete := fun user db =>
    if db.Users.any (fun u => u.ID = user.ID) then
      (none, { db with Users := db.Users.filter (fun u => u.ID ≠ user.ID) })
    else (missing, db)
  FindProjects := fun db => (Except.ok db.Projects, db)
  AssociationFind := fun user db =>
    (Except.ok (db.Projects.filter (fun p => (user.ID, p.ID) ∈ db.UserProjects)), db)
  AssociationDelete := fun user projs db =>
    (none,
      { db with
        UserProjects :=
          db.UserProjects.filter
            (fun row => ¬ (row.1 = user.ID ∧ row.2 ∈ projs.map (fun p => p.ID))) })

/-- The relational gateway whose `delete` reports no error when no row has the
id. -/
def relGateway : Gateway DB := relGatewayWith none

/-! ## Concrete inputs -/

/-- A package `models` to run the handlers with: a name must not be empty, an
email and a phone may be empty, an email otherwise holds an at-sign and a phone
only digits, and the rule levels are 0, 1 and 2 with 0 the lowest. -/
def sampleModels : Models where
  ValidateUserName := fun s => if s = "" then some (GoError.Other "name is empty") else none
  ValidateUserEmail := fun s =>
    if s = "" ∨ '@' ∈ s.data then none else some (GoError.Other "email is invalid")
  ValidateUserPhone := fun s =>
    if s.data.all (fun c => 48 ≤ c.toNat ∧ c.toNat ≤ 57) then none
    else some (GoError.Other "phone is invalid")
  ValidateRuleLevel := fun l =>
    if 0 ≤ l ∧ l ≤ 2 then none else some (GoError.Other "rule level is invalid")
  RuleLevelLow := 0

/-- The stored user of the sample database. -/
def alice : User :=
  { ID := 1, Name := "alice", Email := "alice@example.org", EnableEmail := true,
    Phone := "5550100", EnablePhone := true, Universal := false, RuleLevel := 1 }

/-- A database with one user, two projects, and the user paired with the first
project. -/
def sampleDB : DB :=
  { Users := [alice]
    Projects := [{ ID := 10, Name := "web" }, { ID := 11, Name := "api" }]
    UserProjects := [(1, 10)] }

/-- A database in which a relation row names user 7, who has no User row. -/
def danglingDB : DB :=
  { Users := [alice]
    Projects := [{ ID := 10, Name := "web" }, { ID := 11, Name := "api" }]
    UserProjects := [(1, 10), (7, 11)] }

/-- A database in which a relation row pairs user 1 with project 99, which has
no Project row. -/
def strayDB : DB :=
  { Users := [alice]
    Projects := [{ ID := 10, Name := "web" }, { ID := 11, Name := "api" }]
    UserProjects := [(1, 10), (1, 99)] }

/-- A request body with a valid name, an email without an at-sign and a rule
level outside the enumeration. -/
def badEmailRequest : Request :=
  { Body := some { name := some "bob", email := some "nope", ruleLevel := some 9 } }

/-- A request body with a valid name, no email, no phone, and a rule level
outside the enumeration: only the ruleLevel rule fails. -/
def badLevelRequest : Request :=
  { Body := some { name := some "bob", ruleLevel := some 9 } }

/-- A fresh world over a database: nothing issued, nothing written. -/
def World.start (db : σ) : World σ := { db := db }

/-! ## Specification-side definitions -/

/-- The handler run from `w` ended in `w1` having written exactly the error
`e`, issued no gateway operation and left the gateway state alone. -/
def answersOnly (w w1 : World σ) (e : WebError) : Prop :=
  w1.written = w.written ++ [Response.Error e] ∧ w1.calls = w.calls ∧ w1.db = w.db

/-- The spec's validation order, in its words: name, then email, then phone,
then ruleLevel; the first failure is the one reported. -/
def specFirstFailure (M : Models) (name email phone : String) (ruleLevel : Int) :
    Option GoError :=
  M.ValidateUserName name <|> M.ValidateUserEmail email <|> M.ValidateUserPhone phone <|>
    M.ValidateRuleLevel ruleLevel

/-- The spec's mapping of a failed create, in its words: a not-null constraint
code gives NotNullViolation, a primary-key constraint code PrimaryKeyViolation,
a unique constraint code UniqueConstraintViolation on name, and every other
failure value Unexpected. -/
def specCreateFault : GoError → WebError
  | GoError.Sqlite3Error _ 1299 => WebError.ErrNotNull
  | GoError.Sqlite3Error _ 1555 => WebError.ErrPrimaryKey
  | GoError.Sqlite3Error _ 2067 => WebError.ErrDuplicateUserName
  | err => WebError.NewUnexceptedWebError err

/-- The `User` that `createUser` builds from a bound request. -/
def createUserRequest.toUser (req : createUserRequest) : User :=
  { Name := req.Name, Email := req.Email, EnableEmail := req.EnableEmail,
    Phone := req.Phone, EnablePhone := req.EnablePhone, Universal := req.Universal,
    RuleLevel := req.RuleLevel }

/-- The struct `createUser` hands to `RequestBind`: the defaults of a create
request. -/
def createDefaults (M : Models) : createUserRequest :=
  { EnableEmail := true, EnablePhone := true, Universal := false, RuleLevel := M.RuleLevelLow }

/-- The `User` that `updateUser` saves: the looked-up user with the seven
mutable fields overwritten by the request's. -/
def updateUserRequest.patch (req : updateUserRequest) (user : User) : User :=
  { user with
    Name := req.Name, Email := req.Email, EnableEmail := req.EnableEmail,
    Phone := req.Phone, EnablePhone := req.EnablePhone, Universal := req.Universal,
    RuleLevel := req.RuleLevel }

/-- The spec's full-replace reading of an update body, in its words: a field
present in the body gives its value, an omitted field the zero value (the
empty string, false, 0). -/
def specZeroFilled (b : JSONBody) : updateUserRequest :=
  { Name := b.name.getD "", Email := b.email.getD "", EnableEmail := b.enableEmail.getD false,
    Phone := b.phone.getD "", EnablePhone := b.enablePhone.getD false,
    Universal := b.universal.getD false, RuleLevel := b.ruleLevel.getD 0 }

/-- The Projects the relation pairs with a user id: what the spec calls the
explicitly associated set. -/
def DB.associated (db : DB) (id : Int) : List Project :=
  db.Projects.filter (fun p => (id, p.ID) ∈ db.UserProjects)

/-- Whether a gateway operation is the association delete. -/
def Call.isAssociationDelete : Call → Bool
  | Call.AssociationDelete _ _ => true
  | _ => false

/-- The handler run from `w` ended in `w1` having written exactly one
response. -/
def oneResponse (w w1 : World σ) : Prop :=
  ∃ x, w1.written = w.written ++ [x]

/-- A gateway like `relGateway` whose association delete always faults. -/
def faultyGateway : Gateway DB :=
  { relGateway with
    AssociationDelete := fun _ _ db => (some (GoError.Other "disk I/O error"), db) }

/-- The response `deleteUser` writes for what `Delete` reported. -/
def deleteUserAnswer : Option GoError → List Response
  | none => []
  | some GoError.RecordNotFound => [Response.Error WebError.ErrUserNotFound]
  | some err => [Response.Error (WebError.NewUnexceptedWebError err)]

/-! ## Helper lemmas -/

theorem specFirstFailure_eq_none {M : Models} {name email phone : String} {ruleLevel : Int}
    (h : specFirstFailure M name email phone ruleLevel = none) :
    M.ValidateUserName name = none ∧ M.ValidateUserEmail email = none ∧
      M.ValidateUserPhone phone = none ∧ M.ValidateRuleLevel ruleLevel = none := by
  unfold specFirstFailure at h
  cases h1 : M.ValidateUserName name <;> cases h2 : M.ValidateUserEmail email <;>
    cases h3 : M.ValidateUserPhone phone <;> cases h4 : M.ValidateRuleLevel ruleLevel <;>
    simp_all

theorem createUserError_eq_spec (err : GoError) : createUserError err = specCreateFault err := by
  cases err with
  | RecordNotFound => rfl
  | Other msg => rfl
  | Sqlite3Error c x =>
    simp only [createUserError, ErrConstraintNotNull, ErrConstraintPrimaryKey,
      ErrConstraintUnique]
    by_cases h1 : x = 1299
    · subst h1; rfl
    · by_cases h2 : x = 1555
      · subst h2; rfl
      · by_cases h3 : x = 2067
        · subst h3; rfl
        · rw [if_neg h1, if_neg h2, if_neg h3]
          unfold specCreateFault
          split <;> simp_all

/-- What `updateUser` does when the id parses, the body binds, the four rules
pass, `First` finds `user` and `Save` of the patched user hands back `user2`:
the gateway is left in the state `Save` gave, the two operations are logged and
the one response is the payload `user2`. -/
theorem updateUser_run (M : Models) (g : Gateway σ) (r : Request) (ps : Params) (w : World σ)
    (id : Int) (b : JSONBody) (user user2 : User) (s s1 : σ)
    (hid : Atoi (ps.ByName "id") = some id) (hbody : r.Body = some b)
    (hvalid : specFirstFailure M (specZeroFilled b).Name (specZeroFilled b).Email
      (specZeroFilled b).Phone (specZeroFilled b).RuleLevel = none)
    (hfirst : g.First id w.db = (Except.ok user, s))
    (hsave : g.Save ((specZeroFilled b).patch user) s = (Except.ok user2, s1)) :
    updateUser M g r ps w =
      { db := s1
        calls := w.calls ++ [Call.First id, Call.Save ((specZeroFilled b).patch user)]
        written := w.written ++ [Response.JSONOK (Payload.User user2)] } := by
  obtain ⟨h1, h2, h3, h4⟩ := specFirstFailure_eq_none hvalid
  have hb : RequestBindUpdate r {} = some (specZeroFilled b) := by
    simp [RequestBindUpdate, hbody, specZeroFilled]
  unfold updateUserRequest.patch at hsave
  simp [updateUser, updateUserFind, hid, hb, h1, h2, h3, h4, hfirst, hsave, ResponseJSONOK,
    World.step, updateUserRequest.patch]

/-- The run of `deleteUser` over the relational gateway for an id without a User
row: both association steps and the delete are issued, the relation loses the
pairs of the id with a found Project, and the response is the one for what
`Delete` reported. -/
theorem deleteUser_run_missing (missing : Option GoError) (ps : Params) (w : World DB) (id : Int)
    (hid : Atoi (ps.ByName "id") = some id) (hmissing : ∀ u ∈ w.db.Users, u.ID ≠ id) :
    deleteUser (relGatewayWith missing) ps w =
      { db := { w.db with
                UserProjects := w.db.UserProjects.filter
                  (fun row => ¬ (row.1 = id ∧ row.2 ∈ (w.db.associated id).map (fun p => p.ID))) }
        calls := w.calls ++
          [Call.AssociationFind { ID := id },
            Call.AssociationDelete { ID := id } (w.db.associated id), Call.Delete { ID := id }]
        written := w.written ++ deleteUserAnswer missing } := by
  have hany : ¬ ∃ u ∈ w.db.Users, u.ID = id := by
    rintro ⟨u, hu, h⟩
    exact hmissing u hu h
  rcases missing with _ | err
  · simp [deleteUser, hid, relGatewayWith, World.step, DB.associated, hany, deleteUserAnswer]
  · cases err <;>
      simp [deleteUser, hid, relGatewayWith, World.step, ResponseError, DB.associated, hany,
        deleteUserAnswer]

/-- The run of `deleteUser` over the relational gateway for an id with a User
row. -/
theorem deleteUser_run_existing (missing : Option GoError) (ps : Params) (w : World DB) (id : Int)
    (hid : Atoi (ps.ByName "id") = some id) (hexists : ∃ u ∈ w.db.Users, u.ID = id) :
    deleteUser (relGatewayWith missing) ps w =
      { db := { Users := w.db.Users.filter (fun u => u.ID ≠ id)
                Projects := w.db.Projects
                UserProjects := w.db.UserProjects.filter
                  (fun row => ¬ (row.1 = id ∧ row.2 ∈ (w.db.associated id).map (fun p => p.ID))) }
        calls := w.calls ++
          [Call.AssociationFind { ID := id },
            Call.AssociationDelete { ID := id } (w.db.associated id), Call.Delete { ID := id }]
        written := w.written } := by
  simp [deleteUser, hid, relGatewayWith, World.step, DB.associated, hexists]

/-! ## Claims -/

/-- C5: when the id path segment does not parse as an integer, `getUser`,
`deleteUser` and `updateUser` each write exactly the User-scoped bad-id error
and `getUserProjects` exactly the Project-scoped one, and none of them issues a
gateway operation. -/
theorem bad_id_answers_without_gateway (M : Models) (g : Gateway σ) (r : Request) (ps : Params)
    (w : World σ) (hid : Atoi (ps.ByName "id") = none) :
    answersOnly w (getUser g ps w) WebError.ErrUserID ∧
      answersOnly w (deleteUser g ps w) WebError.ErrUserID ∧
      answersOnly w (updateUser M g r ps w) WebError.ErrUserID ∧
      answersOnly w (getUserProjects g ps w) WebError.ErrProjectID := by
  simp [answersOnly, getUser, deleteUser, updateUser, getUserProjects, hid, ResponseError]

theorem bad_id_answers_without_gateway_witness :
    Atoi (Params.ByName [("id", "12a")] "id") = none ∧
      (answersOnly (World.start sampleDB) (getUser relGateway [("id", "12a")] (World.start sampleDB))
          WebError.ErrUserID ∧
        answersOnly (World.start sampleDB)
          (deleteUser relGateway [("id", "12a")] (World.start sampleDB)) WebError.ErrUserID ∧
        answersOnly (World.start sampleDB)
          (updateUser sampleModels relGateway { Body := some { name := some "bob" } }
            [("id", "12a")] (World.start sampleDB)) WebError.ErrUserID ∧
        answersOnly (World.start sampleDB)
          (getUserProjects relGateway [("id", "12a")] (World.start sampleDB))
          WebError.ErrProjectID) :=
  ⟨by decide,
    bad_id_answers_without_gateway sampleModels relGateway { Body := some { name := some "bob" } }
      [("id", "12a")] (World.start sampleDB) (by decide)⟩

/-- C3: when the name rule rejects the empty string and the request's name is
empty (omitted from the body or given as the empty string), `createUser` and,
for every id that parses, `updateUser` write exactly the validation error
wrapping the name rule's failure and issue no gateway operation, whatever the
other fields are. -/
theorem empty_name_fails_validation (M : Models) (g : Gateway σ) (r : Request) (ps : Params)
    (w : World σ) (e : GoError) (b : JSONBody) (id : Int)
    (hrule : M.ValidateUserName "" = some e) (hbody : r.Body = some b)
    (hname : b.name.getD "" = "") (hid : Atoi (ps.ByName "id") = some id) :
    answersOnly w (createUser M g r w) (WebError.NewValidationWebError e) ∧
      answersOnly w (updateUser M g r ps w) (WebError.NewValidationWebError e) := by
  simp [answersOnly, createUser, updateUser, RequestBindCreate, RequestBindUpdate, hbody, hname,
    hrule, hid, ResponseError]

theorem empty_name_fails_validation_witness :
    sampleModels.ValidateUserName "" = some (GoError.Other "name is empty") ∧
      (answersOnly (World.start sampleDB)
          (createUser sampleModels relGateway
            { Body := some { email := some "bob@example.org", ruleLevel := some 2 } }
            (World.start sampleDB))
          (WebError.NewValidationWebError (GoError.Other "name is empty")) ∧
        answersOnly (World.start sampleDB)
          (updateUser sampleModels relGateway
            { Body := some { email := some "bob@example.org", ruleLevel := some 2 } }
            [("id", "1")] (World.start sampleDB))
          (WebError.NewValidationWebError (GoError.Other "name is empty"))) :=
  ⟨by decide,
    empty_name_fails_validation sampleModels relGateway
      { Body := some { email := some "bob@example.org", ruleLevel := some 2 } } [("id", "1")]
      (World.start sampleDB) (GoError.Other "name is empty")
      { email := some "bob@example.org", ruleLevel := some 2 } 1 (by decide) rfl (by decide)
      (by decide)⟩

/-- C4: for a create request whose body binds to `req`, `createUser` reports
the first failing rule in the order name, email, phone, ruleLevel as a
validation error and issues no gateway operation; when all four rules pass it
issues exactly one gateway operation, `Create` of the user carrying the seven
values of `req`, and writes exactly one response, the created user or the
error mapped from the failure of `Create`. -/
theorem createUser_validates_in_order (M : Models) (g : Gateway σ) (r : Request) (w : World σ)
    (req : createUserRequest) (hbind : RequestBindCreate r (createDefaults M) = some req) :
    match specFirstFailure M req.Name req.Email req.Phone req.RuleLevel with
    | some e => answersOnly w (createUser M g r w) (WebError.NewValidationWebError e)
    | none =>
      (createUser M g r w).calls = w.calls ++ [Call.Create req.toUser] ∧
        req.toUser.Name = req.Name ∧ req.toUser.Email = req.Email ∧
        req.toUser.EnableEmail = req.EnableEmail ∧ req.toUser.Phone = req.Phone ∧
        req.toUser.EnablePhone = req.EnablePhone ∧ req.toUser.Universal = req.Universal ∧
        req.toUser.RuleLevel = req.RuleLevel ∧
        (createUser M g r w).written = w.written ++
          [match (g.Create req.toUser w.db).1 with
            | Except.error err => Response.Error (createUserError err)
            | Except.ok user => Response.JSONOK (Payload.User user)] := by
  unfold createDefaults at hbind
  unfold specFirstFailure
  cases h1 : M.ValidateUserName req.Name with
  | some e1 => simp [answersOnly, createUser, hbind, h1, ResponseError]
  | none =>
    cases h2 : M.ValidateUserEmail req.Email with
    | some e2 => simp [answersOnly, createUser, hbind, h1, h2, ResponseError]
    | none =>
      cases h3 : M.ValidateUserPhone req.Phone with
      | some e3 => simp [answersOnly, createUser, hbind, h1, h2, h3, ResponseError]
      | none =>
        cases h4 : M.ValidateRuleLevel req.RuleLevel with
        | some e4 => simp [answersOnly, createUser, hbind, h1, h2, h3, h4, ResponseError]
        | none =>
          simp only [createUser, hbind, h1, h2, h3, h4, createUserRequest.toUser]
          rcases hc : g.Create
            { Name := req.Name, Email := req.Email, EnableEmail := req.EnableEmail,
              Phone := req.Phone, EnablePhone := req.EnablePhone, Universal := req.Universal,
              RuleLevel := req.RuleLevel } w.db with ⟨res, s⟩
          cases res <;> simp [ResponseError, ResponseJSONOK, World.step]

theorem createUser_validates_in_order_witness :
    RequestBindCreate badEmailRequest (createDefaults sampleModels) =
        some { Name := "bob", Email := "nope", EnableEmail := true, EnablePhone := true,
               RuleLevel := 9 } ∧
      answersOnly (World.start sampleDB)
        (createUser sampleModels relGateway badEmailRequest (World.start sampleDB))
        (WebError.NewValidationWebError (GoError.Other "email is invalid")) :=
  ⟨rfl,
    createUser_validates_in_order sampleModels relGateway badEmailRequest (World.start sampleDB)
      { Name := "bob", Email := "nope", EnableEmail := true, EnablePhone := true, RuleLevel := 9 }
      rfl⟩

/-- C10: when the request binds and passes validation and the gateway's
`Create` fails with the error value `err`, `createUser` writes exactly one
response, the error the spec's mapping assigns to `err`, and no success
payload: the not-null error for a not-null constraint code, the primary-key
error for a primary-key constraint code, the duplicate-name error for a unique
constraint code, and the unexpected error wrapping `err` for every other
storage-engine code and for every error that is no storage-engine error. -/
theorem createUser_fault_mapping (M : Models) (g : Gateway σ) (r : Request) (w : World σ)
    (req : createUserRequest) (err : GoError) (s : σ)
    (hbind : RequestBindCreate r (createDefaults M) = some req)
    (hvalid : specFirstFailure M req.Name req.Email req.Phone req.RuleLevel = none)
    (hcreate : g.Create req.toUser w.db = (Except.error err, s)) :
    (createUser M g r w).written = w.written ++ [Response.Error (specCreateFault err)] ∧
      (∀ c, specCreateFault (GoError.Sqlite3Error c ErrConstraintNotNull) = WebError.ErrNotNull) ∧
      (∀ c, specCreateFault (GoError.Sqlite3Error c ErrConstraintPrimaryKey) =
        WebError.ErrPrimaryKey) ∧
      (∀ c, specCreateFault (GoError.Sqlite3Error c ErrConstraintUnique) =
        WebError.ErrDuplicateUserName) ∧
      (∀ c x, x ≠ ErrConstraintNotNull → x ≠ ErrConstraintPrimaryKey → x ≠ ErrConstraintUnique →
        specCreateFault (GoError.Sqlite3Error c x) =
          WebError.NewUnexceptedWebError (GoError.Sqlite3Error c x)) ∧
      specCreateFault GoError.RecordNotFound =
        WebError.NewUnexceptedWebError GoError.RecordNotFound ∧
      (∀ msg, specCreateFault (GoError.Other msg) =
        WebError.NewUnexceptedWebError (GoError.Other msg)) := by
  obtain ⟨h1, h2, h3, h4⟩ := specFirstFailure_eq_none hvalid
  unfold createDefaults at hbind
  unfold createUserRequest.toUser at hcreate
  refine ⟨?_, fun _ => rfl, fun _ => rfl, fun _ => rfl, ?_, rfl, fun _ => rfl⟩
  · simp [createUser, hbind, h1, h2, h3, h4, hcreate, ResponseError, World.step,
      createUserError_eq_spec]
  · intro c x hx1 hx2 hx3
    rw [← createUserError_eq_spec]
    simp [createUserError, hx1, hx2, hx3]

theorem createUser_fault_mapping_witness :
    (createUser sampleModels relGateway { Body := some { name := some "alice" } }
        (World.start sampleDB)).written =
      [Response.Error (specCreateFault (GoError.Sqlite3Error 19 ErrConstraintUnique))] :=
  (createUser_fault_mapping sampleModels relGateway { Body := some { name := some "alice" } }
    (World.start sampleDB) { Name := "alice", EnableEmail := true, EnablePhone := true }
    (GoError.Sqlite3Error 19 ErrConstraintUnique) sampleDB rfl (by decide) rfl).1

/-- C8: for an id that parses and names a user the gateway's `First` finds,
`getUserProjects` issues after `First` exactly one query, the find-all of
projects when the user's `Universal` flag is true and the association find for
that user when it is false, and writes exactly one response: the list that
query gives (the empty list included), or the unexpected error wrapping the
query's fault. -/
theorem getUserProjects_by_universal (g : Gateway σ) (ps : Params) (w : World σ) (id : Int)
    (user : User) (s : σ) (hid : Atoi (ps.ByName "id") = some id)
    (hfirst : g.First id w.db = (Except.ok user, s)) :
    (getUserProjects g ps w).calls = w.calls ++
        [Call.First id, if user.Universal then Call.FindProjects else Call.AssociationFind user] ∧
      (getUserProjects g ps w).written = w.written ++
        [match (if user.Universal then (g.FindProjects s).1 else (g.AssociationFind user s).1) with
          | Except.ok projs => Response.JSONOK (Payload.Projects projs)
          | Except.error err => Response.Error (WebError.NewUnexceptedWebError err)] := by
  cases hu : user.Universal with
  | true =>
    rcases hq : g.FindProjects s with ⟨res, s1⟩
    cases res <;>
      simp [getUserProjects, hid, hfirst, hu, hq, ResponseError, ResponseJSONOK, World.step]
  | false =>
    rcases hq : g.AssociationFind user s with ⟨res, s1⟩
    cases res <;>
      simp [getUserProjects, hid, hfirst, hu, hq, ResponseError, ResponseJSONOK, World.step]

theorem getUserProjects_by_universal_witness :
    Atoi (Params.ByName [("id", "1")] "id") = some 1 ∧
      relGateway.First 1 sampleDB = (Except.ok alice, sampleDB) ∧
      (getUserProjects relGateway [("id", "1")] (World.start sampleDB)).written =
        [Response.JSONOK (Payload.Projects [{ ID := 10, Name := "web" }])] :=
  ⟨by decide, rfl,
    (getUserProjects_by_universal relGateway [("id", "1")] (World.start sampleDB) 1 alice sampleDB
      (by decide) rfl).2⟩

/-- C9: for an id that parses, a body `b` whose zero-filled reading passes the
four rules and a user the gateway's `First` finds, `updateUser` binds the body
to its zero-filled reading (an omitted field is the empty string, false or 0,
where a create request keeps `true` for an omitted enableEmail or
enablePhone) and passes to `Save` the looked-up user with its id kept and each
of the seven mutable fields equal to the request's value, whatever the stored
values were; when `Save` succeeds the gateway is left in the state `Save` gave
and the one response is the user `Save` handed back.  Over the relational
gateway, for a stored user with a non-zero id and a name no other row has, the
user passed to `Save` keeps that id, the user handed back is that patched user,
the stored row of the id becomes it, the other rows are unchanged, and
`getUser` on the id then returns it. -/
theorem updateUser_full_replace (M : Models) (g : Gateway σ) (r : Request) (ps : Params)
    (w : World σ) (wr : World DB) (missing : Option GoError) (id : Int) (b : JSONBody)
    (user user2 stored : User) (s s1 : σ)
    (hid : Atoi (ps.ByName "id") = some id) (hid0 : id ≠ 0) (hbody : r.Body = some b)
    (hvalid : specFirstFailure M (specZeroFilled b).Name (specZeroFilled b).Email
      (specZeroFilled b).Phone (specZeroFilled b).RuleLevel = none)
    (hfirst : g.First id w.db = (Except.ok user, s))
    (hsave : g.Save ((specZeroFilled b).patch user) s = (Except.ok user2, s1))
    (hstored : wr.db.Users.find? (fun u => u.ID = id) = some stored)
    (hname : ∀ u ∈ wr.db.Users, u.ID ≠ id → u.Name ≠ (specZeroFilled b).Name) :
    RequestBindUpdate r {} = some (specZeroFilled b) ∧
      (updateUser M g r ps w).calls =
        w.calls ++ [Call.First id, Call.Save ((specZeroFilled b).patch user)] ∧
      (updateUser M g r ps w).db = s1 ∧
      (updateUser M g r ps w).written = w.written ++ [Response.JSONOK (Payload.User user2)] ∧
      (specZeroFilled b).patch user =
        { ID := user.ID, Name := b.name.getD "", Email := b.email.getD "",
          EnableEmail := b.enableEmail.getD false, Phone := b.phone.getD "",
          EnablePhone := b.enablePhone.getD false, Universal := b.universal.getD false,
          RuleLevel := b.ruleLevel.getD 0 } ∧
      (RequestBindCreate r (createDefaults M)).map (fun req => (req.EnableEmail, req.EnablePhone)) =
        some (b.enableEmail.getD true, b.enablePhone.getD true) ∧
      ((specZeroFilled b).patch stored).ID = id ∧ ((specZeroFilled b).patch stored).ID ≠ 0 ∧
      (updateUser M (relGatewayWith missing) r ps wr).calls =
        wr.calls ++ [Call.First id, Call.Save ((specZeroFilled b).patch stored)] ∧
      (updateUser M (relGatewayWith missing) r ps wr).written =
        wr.written ++ [Response.JSONOK (Payload.User ((specZeroFilled b).patch stored))] ∧
      (updateUser M (relGatewayWith missing) r ps wr).db =
        { wr.db with
          Users := wr.db.Users.map
            (fun u => if u.ID = id then (specZeroFilled b).patch stored else u) } ∧
      (getUser (relGatewayWith missing) ps (updateUser M (relGatewayWith missing) r ps wr)).written =
        wr.written ++ [Response.JSONOK (Payload.User ((specZeroFilled b).patch stored)),
          Response.JSONOK (Payload.User ((specZeroFilled b).patch stored))] := by
  have hb : RequestBindUpdate r {} = some (specZeroFilled b) := by
    simp [RequestBindUpdate, hbody, specZeroFilled]
  have hrun := updateUser_run M g r ps w id b user user2 s s1 hid hbody hvalid hfirst hsave
  have hsid : stored.ID = id := by simpa using List.find?_some hstored
  have hmem : stored ∈ wr.db.Users := List.mem_of_find?_eq_some hstored
  have hpid : ((specZeroFilled b).patch stored).ID = id := hsid
  have hfirstR : (relGatewayWith missing).First id wr.db = (Except.ok stored, wr.db) := by
    simp [relGatewayWith, hstored]
  have hex : ∃ u ∈ wr.db.Users, u.ID = id := ⟨stored, hmem, hsid⟩
  have hno : ¬ ∃ u ∈ wr.db.Users, ¬ u.ID = id ∧ u.Name = (specZeroFilled b).Name := by
    rintro ⟨u, hu, hne, hn⟩
    exact hname u hu hne hn
  have hsaveR : (relGatewayWith missing).Save ((specZeroFilled b).patch stored) wr.db =
      (Except.ok ((specZeroFilled b).patch stored),
        { wr.db with
          Users := wr.db.Users.map
            (fun u => if u.ID = id then (specZeroFilled b).patch stored else u) }) := by
    have hn2 : ((specZeroFilled b).patch stored).Name = (specZeroFilled b).Name := rfl
    simp only [relGatewayWith, hpid, hn2]
    simp [hex, hno]
  have hrunR := updateUser_run M (relGatewayWith missing) r ps wr id b stored
    ((specZeroFilled b).patch stored) wr.db _ hid hbody hvalid hfirstR hsaveR
  have hfind : (wr.db.Users.map
      (fun u => if u.ID = id then (specZeroFilled b).patch stored else u)).find?
        (fun u => decide (u.ID = id)) = some ((specZeroFilled b).patch stored) := by
    rw [List.find?_map]
    have hpred : ((fun u : User => decide (u.ID = id)) ∘
        fun u => if u.ID = id then (specZeroFilled b).patch stored else u) =
        fun u => decide (u.ID = id) := by
      funext u
      by_cases h : u.ID = id <;> simp [h, hpid]
    rw [hpred, hstored]
    simp [hsid]
  refine ⟨hb, ?_, ?_, ?_, rfl, ?_, hpid, hpid ▸ hid0, ?_, ?_, ?_, ?_⟩
  · rw [hrun]
  · rw [hrun]
  · rw [hrun]
  · simp [RequestBindCreate, hbody, createDefaults]
  · rw [hrunR]
  · rw [hrunR]
  · rw [hrunR]
  · rw [hrunR]
    simp only [getUser, hid, relGatewayWith, hfind, ResponseJSONOK, World.step]
    simp

theorem updateUser_full_replace_witness :
    (updateUser sampleModels relGateway
        { Body := some { name := some "alice", universal := some true } } [("id", "1")]
        (World.start sampleDB)).db =
      { sampleDB with Users := [{ ID := 1, Name := "alice", Universal := true }] } ∧
    (updateUser sampleModels (relGatewayWith none)
        { Body := some { name := some "alice", universal := some true } } [("id", "1")]
        (World.start sampleDB)).written =
      [Response.JSONOK (Payload.User { ID := 1, Name := "alice", Universal := true })] :=
  ⟨(updateUser_full_replace sampleModels relGateway
      { Body := some { name := some "alice", universal := some true } } [("id", "1")]
      (World.start sampleDB) (World.start sampleDB) none 1
      { name := some "alice", universal := some true } alice
      { ID := 1, Name := "alice", Universal := true } alice sampleDB
      { sampleDB with Users := [{ ID := 1, Name := "alice", Universal := true }] }
      (by decide) (by decide) rfl (by decide) rfl rfl rfl (by decide)).2.2.1,
    (updateUser_full_replace sampleModels relGateway
      { Body := some { name := some "alice", universal := some true } } [("id", "1")]
      (World.start sampleDB) (World.start sampleDB) none 1
      { name := some "alice", universal := some true } alice
      { ID := 1, Name := "alice", Universal := true } alice sampleDB
      { sampleDB with Users := [{ ID := 1, Name := "alice", Universal := true }] }
      (by decide) (by decide) rfl (by decide) rfl rfl rfl (by decide)).2.2.2.2.2.2.2.2.2.1⟩

/-- Every handler other than `updateUser` ends each request with one outcome:
`getUsers`, `getUser`, `createUser` and `getUserProjects` write exactly one
response, and `deleteUser` writes nothing on success and exactly one error
otherwise. -/
theorem handlers_one_outcome (M : Models) (g : Gateway σ) (r : Request) (ps : Params)
    (w : World σ) :
    oneResponse w (getUsers g w) ∧ oneResponse w (getUser g ps w) ∧
      oneResponse w (createUser M g r w) ∧ oneResponse w (getUserProjects g ps w) ∧
      ((deleteUser g ps w).written = w.written ∨
        ∃ e, (deleteUser g ps w).written = w.written ++ [Response.Error e]) := by
  refine ⟨?_, ?_, ?_, ?_, ?_⟩
  · simp only [getUsers, oneResponse, ResponseError, ResponseJSONOK, World.step]
    repeat' split
    all_goals simp
  · simp only [getUser, oneResponse, ResponseError, ResponseJSONOK, World.step]
    repeat' split
    all_goals simp
  · simp only [createUser, oneResponse, ResponseError, ResponseJSONOK, World.step]
    repeat' split
    all_goals simp
  · simp only [getUserProjects, oneResponse, ResponseError, ResponseJSONOK, World.step]
    repeat' split
    all_goals simp
  · simp only [deleteUser, ResponseError, World.step]
    repeat' split
    all_goals simp

/-- The fall-through of `updateUser` in general: when the id parses, the body
binds, the name, email and phone rules pass and the ruleLevel rule fails with
`e`, the handler writes the validation error and then runs its tail from
`// Find` on, which starts by issuing `First`. -/
theorem updateUser_ruleLevel_failure_continues (M : Models) (g : Gateway σ) (r : Request)
    (ps : Params) (w : World σ) (id : Int) (req : updateUserRequest) (e : GoError)
    (hid : Atoi (ps.ByName "id") = some id) (hbind : RequestBindUpdate r {} = some req)
    (h1 : M.ValidateUserName req.Name = none) (h2 : M.ValidateUserEmail req.Email = none)
    (h3 : M.ValidateUserPhone req.Phone = none) (h4 : M.ValidateRuleLevel req.RuleLevel = some e) :
    updateUser M g r ps w =
        updateUserFind g id req (ResponseError w (WebError.NewValidationWebError e)) ∧
      ∃ rest, (updateUser M g r ps w).calls = w.calls ++ Call.First id :: rest := by
  have hrun : updateUser M g r ps w =
      updateUserFind g id req (ResponseError w (WebError.NewValidationWebError e)) := by
    simp [updateUser, hid, hbind, h1, h2, h3, h4]
  refine ⟨hrun, ?_⟩
  rw [hrun]
  simp only [updateUserFind, ResponseError, ResponseJSONOK, World.step]
  repeat' split
  all_goals simp

/-- C1: at the update request `badLevelRequest` for the stored user 1, the
name, email and phone rules pass and only the ruleLevel rule fails; `updateUser`
writes the validation error and then goes on: it issues `First` and `Save`,
overwrites the stored user and writes a second response, the success
payload. -/
theorem updateUser_invalid_ruleLevel_falls_through :
    sampleModels.ValidateUserName "bob" = none ∧ sampleModels.ValidateUserEmail "" = none ∧
      sampleModels.ValidateUserPhone "" = none ∧
      sampleModels.ValidateRuleLevel 9 = some (GoError.Other "rule level is invalid") ∧
      (updateUser sampleModels relGateway badLevelRequest [("id", "1")]
          (World.start sampleDB)).calls =
        [Call.First 1, Call.Save { ID := 1, Name := "bob", RuleLevel := 9 }] ∧
      (updateUser sampleModels relGateway badLevelRequest [("id", "1")]
          (World.start sampleDB)).written =
        [Response.Error
            (WebError.NewValidationWebError (GoError.Other "rule level is invalid")),
          Response.JSONOK (Payload.User { ID := 1, Name := "bob", RuleLevel := 9 })] ∧
      (updateUser sampleModels relGateway badLevelRequest [("id", "1")]
          (World.start sampleDB)).db.Users = [{ ID := 1, Name := "bob", RuleLevel := 9 }] ∧
      (updateUser sampleModels relGateway badLevelRequest [("id", "1")]
          (World.start sampleDB)).db.Users ≠ sampleDB.Users := by
  decide

/-- C2: at the update request `badLevelRequest` for the id 5, which names no
stored user, `updateUser` writes two error responses in one execution: the
validation error of the ruleLevel rule and then the not-found error. -/
theorem updateUser_writes_two_responses :
    (updateUser sampleModels relGateway badLevelRequest [("id", "5")]
        (World.start sampleDB)).written =
      [Response.Error (WebError.NewValidationWebError (GoError.Other "rule level is invalid")),
        Response.Error WebError.ErrUserNotFound] ∧
      (updateUser sampleModels relGateway badLevelRequest [("id", "5")]
        (World.start sampleDB)).written.length = 2 := by
  decide

/-- C6 as stated fails: in `danglingDB` no User row has id 7 and the association
lookup for 7 is non-empty; whether the gateway's delete reports a missing row
as not found or reports no error, `deleteUser` has issued the association
delete and the relation has lost a row. -/
theorem deleteUser_missing_user_mutates_associations :
    danglingDB.Users.all (fun u => u.ID ≠ 7) = true ∧
      danglingDB.associated 7 = [{ ID := 11, Name := "api" }] ∧
      ¬ ((deleteUser (relGatewayWith none) [("id", "7")] (World.start danglingDB)).calls.all
            (fun c => !c.isAssociationDelete) = true ∨
          (deleteUser (relGatewayWith none) [("id", "7")]
            (World.start danglingDB)).db.UserProjects = danglingDB.UserProjects) ∧
      ¬ ((deleteUser (relGatewayWith (some GoError.RecordNotFound)) [("id", "7")]
            (World.start danglingDB)).calls.all (fun c => !c.isAssociationDelete) = true ∨
          (deleteUser (relGatewayWith (some GoError.RecordNotFound)) [("id", "7")]
            (World.start danglingDB)).db.UserProjects = danglingDB.UserProjects) := by
  decide

/-- C6, amended: over the relational gateway, whatever its delete reports for a
missing row, for a non-zero id that parses and names no stored User,
`deleteUser` makes no existence check: the user reference it builds has a
primary key that is not blank, and it issues the association find, the
association delete with exactly the list found, and the delete, in that order;
the User and Project rows are left as they were; the relation afterwards is the
relation before without the pairs of that id with a found Project, so the
gateway state is unchanged when the lookup finds nothing. -/
theorem deleteUser_missing_user (missing : Option GoError) (ps : Params) (w : World DB)
    (id : Int) (hid : Atoi (ps.ByName "id") = some id) (hid0 : id ≠ 0)
    (hmissing : ∀ u ∈ w.db.Users, u.ID ≠ id) :
    ({ ID := id } : User).ID ≠ 0 ∧
      (relGatewayWith missing).AssociationFind { ID := id } w.db =
        (Except.ok (w.db.associated id), w.db) ∧
      (deleteUser (relGatewayWith missing) ps w).calls = w.calls ++
        [Call.AssociationFind { ID := id },
          Call.AssociationDelete { ID := id } (w.db.associated id), Call.Delete { ID := id }] ∧
      (deleteUser (relGatewayWith missing) ps w).db.Users = w.db.Users ∧
      (deleteUser (relGatewayWith missing) ps w).db.Projects = w.db.Projects ∧
      (deleteUser (relGatewayWith missing) ps w).db.UserProjects =
        w.db.UserProjects.filter
          (fun row => ¬ (row.1 = id ∧ row.2 ∈ (w.db.associated id).map (fun p => p.ID))) ∧
      (w.db.associated id = [] → (deleteUser (relGatewayWith missing) ps w).db = w.db) := by
  rw [deleteUser_run_missing missing ps w id hid hmissing]
  refine ⟨hid0, rfl, rfl, rfl, rfl, rfl, ?_⟩
  intro hnone
  simp [hnone]

theorem deleteUser_missing_user_witness :
    Atoi (Params.ByName [("id", "7")] "id") = some 7 ∧ (∀ u ∈ sampleDB.Users, u.ID ≠ 7) ∧
      sampleDB.associated 7 = [] ∧
      (deleteUser (relGatewayWith none) [("id", "7")] (World.start sampleDB)).calls =
        [Call.AssociationFind { ID := 7 }, Call.AssociationDelete { ID := 7 } [],
          Call.Delete { ID := 7 }] ∧
      (deleteUser (relGatewayWith none) [("id", "7")] (World.start sampleDB)).db = sampleDB :=
  ⟨by decide, by decide, by decide,
    (deleteUser_missing_user none [("id", "7")] (World.start sampleDB) 7 (by decide) (by decide)
      (by decide)).2.2.1,
    (deleteUser_missing_user none [("id", "7")] (World.start sampleDB) 7 (by decide) (by decide)
      (by decide)).2.2.2.2.2.2 (by decide)⟩

/-- C7 as stated fails: in `strayDB` the stored user 1 has a relation row to
project 99, which has no Project row; `deleteUser` succeeds, issues the three
operations, writes nothing and removes the User row, yet the row `(1, 99)` is
still in the relation. -/
theorem deleteUser_leaves_stray_association :
    (∃ u ∈ strayDB.Users, u.ID = 1) ∧
      (deleteUser relGateway [("id", "1")] (World.start strayDB)).calls =
        [Call.AssociationFind { ID := 1 },
          Call.AssociationDelete { ID := 1 } [{ ID := 10, Name := "web" }],
          Call.Delete { ID := 1 }] ∧
      (deleteUser relGateway [("id", "1")] (World.start strayDB)).written = [] ∧
      (deleteUser relGateway [("id", "1")] (World.start strayDB)).db.Users = [] ∧
      ¬ (∀ row ∈ (deleteUser relGateway [("id", "1")] (World.start strayDB)).db.UserProjects,
          row.1 ≠ 1) := by
  decide

/-- C7, amended: over the relational gateway, for a non-zero id that parses and
names a stored User whose relation rows all name stored Projects, `deleteUser`
builds a user reference whose primary key is not blank and issues the
association find, the association delete with exactly the list
found, and the delete of the User row, in that order, and writes nothing;
afterwards the relation is the relation before without every row of that id,
the User rows are the rows before without that id, the Project rows are
unchanged, and `getUser` on the same id answers with the not-found error.  Over
any gateway, a fault of the association find or of the association delete is
answered with the unexpected error and the delete of the User row is not
issued. -/
theorem deleteUser_existing_user (g : Gateway σ) (missing : Option GoError) (ps : Params)
    (w : World DB) (w2 : World σ) (id : Int) (hid : Atoi (ps.ByName "id") = some id)
    (hid0 : id ≠ 0) (hexists : ∃ u ∈ w.db.Users, u.ID = id)
    (hrows : ∀ row ∈ w.db.UserProjects, row.1 = id → ∃ p ∈ w.db.Projects, p.ID = row.2) :
    (({ ID := id } : User).ID ≠ 0 ∧
        (relGatewayWith missing).AssociationFind { ID := id } w.db =
          (Except.ok (w.db.associated id), w.db) ∧
        (deleteUser (relGatewayWith missing) ps w).calls = w.calls ++
          [Call.AssociationFind { ID := id },
            Call.AssociationDelete { ID := id } (w.db.associated id), Call.Delete { ID := id }] ∧
        (deleteUser (relGatewayWith missing) ps w).written = w.written ∧
        (deleteUser (relGatewayWith missing) ps w).db.UserProjects =
          w.db.UserProjects.filter (fun row => row.1 ≠ id) ∧
        (deleteUser (relGatewayWith missing) ps w).db.Users =
          w.db.Users.filter (fun u => u.ID ≠ id) ∧
        (deleteUser (relGatewayWith missing) ps w).db.Projects = w.db.Projects ∧
        (getUser (relGatewayWith missing) ps (deleteUser (relGatewayWith missing) ps w)).written =
          w.written ++ [Response.Error WebError.ErrUserNotFound]) ∧
      (match g.AssociationFind { ID := id } w2.db with
        | (Except.error err, _) =>
          (deleteUser g ps w2).written =
              w2.written ++ [Response.Error (WebError.NewUnexceptedWebError err)] ∧
            (deleteUser g ps w2).calls = w2.calls ++ [Call.AssociationFind { ID := id }]
        | (Except.ok projs, s) =>
          match g.AssociationDelete { ID := id } projs s with
          | (some err, _) =>
            (deleteUser g ps w2).written =
                w2.written ++ [Response.Error (WebError.NewUnexceptedWebError err)] ∧
              (deleteUser g ps w2).calls = w2.calls ++
                [Call.AssociationFind { ID := id }, Call.AssociationDelete { ID := id } projs]
          | (none, _) =>
            (deleteUser g ps w2).calls = w2.calls ++
              [Call.AssociationFind { ID := id }, Call.AssociationDelete { ID := id } projs,
                Call.Delete { ID := id }]) := by
  constructor
  · have hfilter : w.db.UserProjects.filter
          (fun row => ¬ (row.1 = id ∧ row.2 ∈ (w.db.associated id).map (fun p => p.ID))) =
        w.db.UserProjects.filter (fun row => row.1 ≠ id) := by
      apply List.filter_congr
      intro row hrow
      by_cases h : row.1 = id
      · obtain ⟨p, hp, hpid⟩ := hrows row hrow h
        have hmem : row.2 ∈ (w.db.associated id).map (fun p => p.ID) := by
          refine List.mem_map.2 ⟨p, ?_, hpid⟩
          have hpair : (id, p.ID) = row := by rw [hpid, ← h]
          simp [DB.associated, hp, hpair, hrow]
        simp [h, hmem]
      · simp [h]
    have hfind : (w.db.Users.filter (fun u => u.ID ≠ id)).find? (fun u => decide (u.ID = id)) =
        none := by
      rw [List.find?_eq_none]
      intro u hu
      simpa using (List.mem_filter.1 hu).2
    rw [deleteUser_run_existing missing ps w id hid hexists]
    refine ⟨hid0, rfl, rfl, rfl, hfilter, rfl, rfl, ?_⟩
    simp only [getUser, hid, relGatewayWith, hfind, ResponseError, World.step]
  · rcases hf : g.AssociationFind { ID := id } w2.db with ⟨res, s⟩
    cases res with
    | error err => simp [deleteUser, hid, hf, ResponseError, World.step]
    | ok projs =>
      rcases hd : g.AssociationDelete { ID := id } projs s with ⟨res2, s2⟩
      cases res2 with
      | some err => simp [deleteUser, hid, hf, hd, ResponseError, World.step]
      | none =>
        simp only [deleteUser, hid, hf, hd, World.step]
        repeat' split
        all_goals simp [ResponseError]

theorem deleteUser_existing_user_witness :
    Atoi (Params.ByName [("id", "1")] "id") = some 1 ∧ (∃ u ∈ sampleDB.Users, u.ID = 1) ∧
      (∀ row ∈ sampleDB.UserProjects, row.1 = 1 → ∃ p ∈ sampleDB.Projects, p.ID = row.2) ∧
      (deleteUser (relGatewayWith none) [("id", "1")] (World.start sampleDB)).db.UserProjects =
        sampleDB.UserProjects.filter (fun row => row.1 ≠ 1) ∧
      (deleteUser faultyGateway [("id", "1")] (World.start sampleDB)).written =
        [Response.Error (WebError.NewUnexceptedWebError (GoError.Other "disk I/O error"))] :=
  ⟨by decide, by decide, by decide,
    (deleteUser_existing_user faultyGateway none [("id", "1")] (World.start sampleDB)
      (World.start sampleDB) 1 (by decide) (by decide) (by decide) (by decide)).1.2.2.2.2.1,
    (deleteUser_existing_user faultyGateway none [("id", "1")] (World.start sampleDB)
      (World.start sampleDB) 1 (by decide) (by decide) (by decide) (by decide)).2.1⟩

end Webapp
